import Mathlib

/-!
Verification of the box_raw_ptr pointer-wrapper library.

The Rust source (src/lib.rs and src/allocator.rs) is shallowly embedded:
raw addresses are modelled as integers, with 0 standing for the null
pointer; the element type T of the generic wrappers is a phantom type
parameter; and the per-type constants align_of T and size_of T are passed
to the methods that use them as explicit arguments al and sz.  Memory is
a total map from addresses to values.  A Rust method returning an
optional unit while mutating self is embedded as a function returning
the pair of that optional result and the post-state; a failing call
always pairs with the unchanged state, exactly as in the source.  An
assertion failure (a panic, or a process abort in the allocator) is
modelled as the value none of an optional result type, since the Rust
function never returns normally in that case.  Integer arithmetic is
idealised over Int and Nat: the source converts between usize and isize
on quantities that, for any handle describing real memory, fit in
isize, so wrap-around never occurs on the covered executions and is out
of scope here.
-/

namespace BoxRawPtr

/-- Embedding of const_raw_ptr::ConstRawPtr, src/lib.rs lines 159 to 165.
The phantom parameter T records the element type; ptr is the numeric
address of the field of raw pointer type, with 0 for null. -/
structure ConstRawPtr (T : Type) where
  ptr : Int
  memory_length : Nat
  offset : Nat
deriving DecidableEq

/-- Embedding of mut_raw_ptr::MutRawPtr, src/lib.rs lines 583 to 589.
Same three fields as ConstRawPtr; the wrapped pointer is mutable. -/
structure MutRawPtr (T : Type) where
  ptr : Int
  memory_length : Nat
  offset : Nat
deriving DecidableEq

/-- Embedding of ConstRawPtr::new, src/lib.rs lines 240 to 245.  The two
assertions (pointer aligned to T, offset within bounds) panic on
failure, modelled as none; on success the triple is stored unchanged. -/
def ConstRawPtr.new {T : Type} (p : Int) (memory_length offset al : Nat) :
    Option (ConstRawPtr T) :=
  if p % (al : Int) = 0 then
    if offset < memory_length then
      some (ConstRawPtr.mk p memory_length offset)
    else none
  else none

/-- Embedding of MutRawPtr::new, src/lib.rs lines 664 to 669. -/
def MutRawPtr.new {T : Type} (p : Int) (memory_length offset al : Nat) :
    Option (MutRawPtr T) :=
  if p % (al : Int) = 0 then
    if offset < memory_length then
      some (MutRawPtr.mk p memory_length offset)
    else none
  else none

/-- Embedding of ConstRawPtr::nullptr, src/lib.rs lines 256 to 259. -/
def ConstRawPtr.nullptr (T : Type) : ConstRawPtr T :=
  ConstRawPtr.mk 0 0 0

/-- Embedding of MutRawPtr::nullptr, src/lib.rs lines 680 to 683. -/
def MutRawPtr.nullptr (T : Type) : MutRawPtr T :=
  MutRawPtr.mk 0 0 0

/-- Embedding of ConstRawPtr::check_bounds, src/lib.rs lines 289 to 292.
The source tests membership of offset in the inclusive range from 0 to
memory_length. -/
def ConstRawPtr.check_bounds {T : Type} (h : ConstRawPtr T) : Bool :=
  decide (0 ≤ h.offset ∧ h.offset ≤ h.memory_length)

/-- Embedding of MutRawPtr::check_bounds, src/lib.rs lines 713 to 716. -/
def MutRawPtr.check_bounds {T : Type} (h : MutRawPtr T) : Bool :=
  decide (0 ≤ h.offset ∧ h.offset ≤ h.memory_length)

/-- Embedding of ConstRawPtr::check_ptr, src/lib.rs lines 303 to 309:
false on a null pointer, otherwise true exactly when the address is a
multiple of the alignment of T. -/
def ConstRawPtr.check_ptr {T : Type} (al : Nat) (h : ConstRawPtr T) : Bool :=
  if h.ptr = 0 then false else decide (h.ptr % (al : Int) = 0)

/-- Embedding of MutRawPtr::check_ptr, src/lib.rs lines 727 to 733. -/
def MutRawPtr.check_ptr {T : Type} (al : Nat) (h : MutRawPtr T) : Bool :=
  if h.ptr = 0 then false else decide (h.ptr % (al : Int) = 0)

/-- Embedding of ConstRawPtr::is_null, src/lib.rs lines 503 to 506. -/
def ConstRawPtr.is_null {T : Type} (h : ConstRawPtr T) : Bool :=
  decide (h.ptr = 0)

/-- Embedding of MutRawPtr::is_null, src/lib.rs lines 938 to 941. -/
def MutRawPtr.is_null {T : Type} (h : MutRawPtr T) : Bool :=
  decide (h.ptr = 0)

/-- Embedding of ConstRawPtr::change_offset, src/lib.rs lines 347 to 364.
Returns the optional unit result of the source paired with the
post-state of the handle; a failing call leaves the handle unchanged.
The pointer moves by count elements, that is count times the size of T
bytes on the numeric address. -/
def ConstRawPtr.change_offset {T : Type} (sz al : Nat) (h : ConstRawPtr T)
    (count : Int) : Option Unit × ConstRawPtr T :=
  if ConstRawPtr.check_ptr al h then
    if 0 ≤ (h.offset : Int) + count ∧
        (h.offset : Int) + count < (h.memory_length : Int) then
      (some (), ConstRawPtr.mk (h.ptr + count * (sz : Int)) h.memory_length
        ((h.offset : Int) + count).toNat)
    else (none, h)
  else (none, h)

/-- Embedding of MutRawPtr::change_offset, src/lib.rs lines 771 to 788. -/
def MutRawPtr.change_offset {T : Type} (sz al : Nat) (h : MutRawPtr T)
    (count : Int) : Option Unit × MutRawPtr T :=
  if MutRawPtr.check_ptr al h then
    if 0 ≤ (h.offset : Int) + count ∧
        (h.offset : Int) + count < (h.memory_length : Int) then
      (some (), MutRawPtr.mk (h.ptr + count * (sz : Int)) h.memory_length
        ((h.offset : Int) + count).toNat)
    else (none, h)
  else (none, h)

/-- Embedding of ConstRawPtr::change_memory_length, src/lib.rs lines 380
to 387: fails when the new length is zero or the current offset is
greater than or equal to it. -/
def ConstRawPtr.change_memory_length {T : Type} (h : ConstRawPtr T)
    (memory_length : Nat) : Option Unit × ConstRawPtr T :=
  if memory_length ≤ 0 ∨ h.offset ≥ memory_length then (none, h)
  else (some (), ConstRawPtr.mk h.ptr memory_length h.offset)

/-- Embedding of MutRawPtr::change_memory_length, src/lib.rs lines 797
to 804: fails when the new length is zero or the current offset is
strictly greater than it (note the strict comparison, unlike the
ConstRawPtr variant). -/
def MutRawPtr.change_memory_length {T : Type} (h : MutRawPtr T)
    (memory_length : Nat) : Option Unit × MutRawPtr T :=
  if memory_length ≤ 0 ∨ h.offset > memory_length then (none, h)
  else (some (), MutRawPtr.mk h.ptr memory_length h.offset)

/-- Embedding of the Drop implementation for MutRawPtr, src/lib.rs lines
1007 to 1016: the destructor deallocates the block exactly when
check_ptr holds on the fields at drop time. -/
def MutRawPtr.drop_frees {T : Type} (al : Nat) (h : MutRawPtr T) : Bool :=
  MutRawPtr.check_ptr al h

/-- Embedding of MutRawPtr::release_ptr, src/lib.rs lines 816 to 826.
The method consumes self; on a valid handle it reads the current value
and then calls drop on self, which runs the Drop implementation on the
fields unchanged; on an invalid handle self is likewise dropped at the
end of the call, freeing nothing.  The result records the returned
value, the handle state handed to the Drop implementation, and whether
that drop deallocated the block. -/
def MutRawPtr.release_ptr {T : Type} (al : Nat) (h : MutRawPtr T)
    (mem : Int → T) : Option T × MutRawPtr T × Bool :=
  if MutRawPtr.check_ptr al h then
    (some (mem h.ptr), h, MutRawPtr.drop_frees al h)
  else
    (none, h, MutRawPtr.drop_frees al h)

/-- Embedding of ConstRawPtr::as_mut, src/lib.rs lines 453 to 456: it
forwards the three fields to MutRawPtr::new, whose assertions may
panic (none). -/
def ConstRawPtr.as_mut {T : Type} (al : Nat) (h : ConstRawPtr T) :
    Option (MutRawPtr T) :=
  MutRawPtr.new h.ptr h.memory_length h.offset al

/-- Embedding of MutRawPtr::as_const, src/lib.rs lines 870 to 872. -/
def MutRawPtr.as_const {T : Type} (al : Nat) (h : MutRawPtr T) :
    Option (ConstRawPtr T) :=
  ConstRawPtr.new h.ptr h.memory_length h.offset al

/-- Embedding of MutRawPtr::access, src/lib.rs lines 884 to 890: reads
the value at the current address when check_ptr holds. -/
def MutRawPtr.access {T : Type} (al : Nat) (h : MutRawPtr T)
    (mem : Int → T) : Option T :=
  if MutRawPtr.check_ptr al h then some (mem h.ptr) else none

/-- Embedding of MutRawPtr::write_ptr, src/lib.rs lines 990 to 998:
overwrites the value at the current address when check_ptr holds,
returning the optional unit result paired with the post-state of
memory; a failing call performs no write. -/
def MutRawPtr.write_ptr {T : Type} (al : Nat) (h : MutRawPtr T)
    (mem : Int → T) (src : T) : Option Unit × (Int → T) :=
  if MutRawPtr.check_ptr al h then
    (some (), Function.update mem h.ptr src)
  else (none, mem)

/-- Embedding of ConstRawPtr::cast_ptr, src/lib.rs lines 533 to 541:
fails exactly on a null pointer (alignment is not rechecked) and
otherwise carries the three fields over to a handle of element type U. -/
def ConstRawPtr.cast_ptr {T : Type} (U : Type) (h : ConstRawPtr T) :
    Option (ConstRawPtr U) :=
  if ¬ h.ptr = 0 then
    some (ConstRawPtr.mk h.ptr h.memory_length h.offset)
  else none

/-- Embedding of MutRawPtr::cast_ptr, src/lib.rs lines 968 to 978. -/
def MutRawPtr.cast_ptr {T : Type} (U : Type) (h : MutRawPtr T) :
    Option (MutRawPtr U) :=
  if ¬ h.ptr = 0 then
    some (MutRawPtr.mk h.ptr h.memory_length h.offset)
  else none

/-- Embedding of the alloc method of the GlobalAlloc implementation for
C_GLOBAL_ALLOCATOR, src/allocator.rs lines 47 to 54.  backend models
the external C function c_global_allocator applied to the layout size;
handle_alloc_error aborts the process, modelled as none. -/
def C_GLOBAL_ALLOCATOR.alloc (backend : Nat → Nat) (size : Nat) : Option Nat :=
  if backend size = 0 then none else some (backend size)

/-- Helper: a bounds-respecting change_offset call on a valid ConstRawPtr
succeeds and co-updates address and offset. -/
theorem const_change_offset_success {T : Type} (sz al : Nat)
    (h : ConstRawPtr T) (count : Int)
    (hc : ConstRawPtr.check_ptr al h = true)
    (hb : 0 ≤ (h.offset : Int) + count ∧
      (h.offset : Int) + count < (h.memory_length : Int)) :
    ConstRawPtr.change_offset sz al h count =
      (some (), ConstRawPtr.mk (h.ptr + count * (sz : Int)) h.memory_length
        ((h.offset : Int) + count).toNat) := by
  unfold ConstRawPtr.change_offset
  rw [if_pos hc, if_pos hb]

/-- Helper: a bounds-violating change_offset call on a ConstRawPtr fails
and leaves the handle unchanged. -/
theorem const_change_offset_failure {T : Type} (sz al : Nat)
    (h : ConstRawPtr T) (count : Int)
    (hb : ¬ (0 ≤ (h.offset : Int) + count ∧
      (h.offset : Int) + count < (h.memory_length : Int))) :
    ConstRawPtr.change_offset sz al h count = (none, h) := by
  unfold ConstRawPtr.change_offset
  by_cases hc : ConstRawPtr.check_ptr al h = true
  · rw [if_pos hc, if_neg hb]
  · rw [if_neg hc]

/-- Helper: a bounds-respecting change_offset call on a valid MutRawPtr
succeeds and co-updates address and offset. -/
theorem mut_change_offset_success {T : Type} (sz al : Nat)
    (h : MutRawPtr T) (count : Int)
    (hc : MutRawPtr.check_ptr al h = true)
    (hb : 0 ≤ (h.offset : Int) + count ∧
      (h.offset : Int) + count < (h.memory_length : Int)) :
    MutRawPtr.change_offset sz al h count =
      (some (), MutRawPtr.mk (h.ptr + count * (sz : Int)) h.memory_length
        ((h.offset : Int) + count).toNat) := by
  unfold MutRawPtr.change_offset
  rw [if_pos hc, if_pos hb]

/-- Helper: a bounds-violating change_offset call on a MutRawPtr fails
and leaves the handle unchanged. -/
theorem mut_change_offset_failure {T : Type} (sz al : Nat)
    (h : MutRawPtr T) (count : Int)
    (hb : ¬ (0 ≤ (h.offset : Int) + count ∧
      (h.offset : Int) + count < (h.memory_length : Int))) :
    MutRawPtr.change_offset sz al h count = (none, h) := by
  unfold MutRawPtr.change_offset
  by_cases hc : MutRawPtr.check_ptr al h = true
  · rw [if_pos hc, if_neg hb]
  · rw [if_neg hc]

/-- C1: the claim states that check_bounds returns true iff the offset lies
in the half-open range 0 <= offset < memory_length, in particular false at
offset = memory_length.  The source instead tests the inclusive range from
0 to memory_length: at memory_length = 5, offset = 5 both variants return
true although offset < memory_length fails, contradicting the strict bound
offset < memory_length asserted by their own constructors, which reject
exactly this state. -/
theorem check_bounds_true_at_offset_eq_length :
    ConstRawPtr.check_bounds (ConstRawPtr.mk 8 5 5 : ConstRawPtr Int) = true ∧
    MutRawPtr.check_bounds (MutRawPtr.mk 8 5 5 : MutRawPtr Int) = true ∧
    ¬ (5 < 5) ∧
    (ConstRawPtr.new 8 5 5 4 : Option (ConstRawPtr Int)) = none ∧
    (MutRawPtr.new 8 5 5 4 : Option (MutRawPtr Int)) = none := by
  decide

/-- C2: the claim states that for both variants change_memory_length
succeeds iff the new length is positive and offset < new_length, failing
otherwise with the handle unchanged.  The MutRawPtr variant instead uses
the non-strict test offset > new_length for failure, so at offset = 3 a
call with new length 3 succeeds and produces a handle with
offset = memory_length = 3, a state both constructors reject; the
ConstRawPtr variant correctly fails on the same input and leaves the
handle unchanged. -/
theorem mut_change_memory_length_allows_offset_eq_length :
    MutRawPtr.change_memory_length (MutRawPtr.mk 8 5 3 : MutRawPtr Int) 3 =
      (some (), MutRawPtr.mk 8 3 3) ∧
    ConstRawPtr.change_memory_length (ConstRawPtr.mk 8 5 3 : ConstRawPtr Int) 3 =
      (none, ConstRawPtr.mk 8 5 3) := by
  decide

/-- C3 counterexample: the claim states that release_ptr on a valid handle
returns the current value and transitions the handle to the null state, so
that the end-of-life cleanup does not deallocate.  On the valid handle with
address 8, length 1, offset 0 (element type of alignment 4), release_ptr
does return the value, but the handle reaching the Drop implementation is
not null and that drop does deallocate the block right away. -/
theorem release_ptr_deallocates_counterexample :
    (MutRawPtr.release_ptr 4 (MutRawPtr.mk 8 1 0 : MutRawPtr Int)
      (fun _ => (42 : Int))).1 = some 42 ∧
    (MutRawPtr.release_ptr 4 (MutRawPtr.mk 8 1 0 : MutRawPtr Int)
      (fun _ => (42 : Int))).2.1.is_null = false ∧
    (MutRawPtr.release_ptr 4 (MutRawPtr.mk 8 1 0 : MutRawPtr Int)
      (fun _ => (42 : Int))).2.2 = true := by
  decide

/-- C3 amended: on a valid (non-null, aligned) handle, release_ptr returns
the current element value and consumes the handle; the handle is handed to
the Drop cleanup with its fields unchanged (never transitioned to a null
state), and that cleanup deallocates the block at that moment, exactly
once since the handle no longer exists afterwards.  On a null or
misaligned handle release_ptr returns none and no deallocation occurs. -/
theorem release_ptr_characterisation {T : Type} (al : Nat) (h : MutRawPtr T)
    (mem : Int → T) :
    (MutRawPtr.check_ptr al h = true →
      MutRawPtr.release_ptr al h mem = (some (mem h.ptr), h, true)) ∧
    (MutRawPtr.check_ptr al h = false →
      MutRawPtr.release_ptr al h mem = (none, h, false)) := by
  constructor <;> intro hv <;>
    simp [MutRawPtr.release_ptr, MutRawPtr.drop_frees, hv]

/-- Witness for release_ptr_characterisation at a concrete valid handle. -/
theorem release_ptr_characterisation_witness :
    MutRawPtr.release_ptr 4 (MutRawPtr.mk 8 1 0 : MutRawPtr Int)
      (fun _ => (42 : Int)) = (some 42, MutRawPtr.mk 8 1 0, true) :=
  (release_ptr_characterisation 4 (MutRawPtr.mk 8 1 0) (fun _ => (42 : Int))).1
    (by decide)

/-- C4: for every element type T (alignment al), both constructors succeed,
storing the address, length and offset unchanged, exactly when the address
is a multiple of al and offset < length; otherwise the assertions fire and
the call panics (modelled as none) rather than returning a recoverable
error. -/
theorem new_succeeds_iff_aligned_and_in_bounds (T : Type) (p : Int)
    (len off al : Nat) :
    ((ConstRawPtr.new p len off al : Option (ConstRawPtr T)).isSome = true ↔
      ((al : Int) ∣ p ∧ off < len)) ∧
    (∀ h : ConstRawPtr T, ConstRawPtr.new p len off al = some h →
      h.ptr = p ∧ h.memory_length = len ∧ h.offset = off) ∧
    ((MutRawPtr.new p len off al : Option (MutRawPtr T)).isSome = true ↔
      ((al : Int) ∣ p ∧ off < len)) ∧
    (∀ h : MutRawPtr T, MutRawPtr.new p len off al = some h →
      h.ptr = p ∧ h.memory_length = len ∧ h.offset = off) := by
  refine ⟨?_, ?_, ?_, ?_⟩
  · unfold ConstRawPtr.new
    split_ifs with h1 h2
    · simp only [Option.isSome_some, true_iff]
      exact ⟨Int.dvd_of_emod_eq_zero h1, h2⟩
    · simp only [Option.isSome_none, Bool.false_eq_true, false_iff]
      rintro ⟨hd, hlt⟩
      exact h2 hlt
    · simp only [Option.isSome_none, Bool.false_eq_true, false_iff]
      rintro ⟨hd, hlt⟩
      exact h1 (Int.emod_eq_zero_of_dvd hd)
  · intro h hh
    unfold ConstRawPtr.new at hh
    split_ifs at hh with h1 h2
    · rw [Option.some_inj] at hh
      rw [← hh]
      exact ⟨rfl, rfl, rfl⟩
  · unfold MutRawPtr.new
    split_ifs with h1 h2
    · simp only [Option.isSome_some, true_iff]
      exact ⟨Int.dvd_of_emod_eq_zero h1, h2⟩
    · simp only [Option.isSome_none, Bool.false_eq_true, false_iff]
      rintro ⟨hd, hlt⟩
      exact h2 hlt
    · simp only [Option.isSome_none, Bool.false_eq_true, false_iff]
      rintro ⟨hd, hlt⟩
      exact h1 (Int.emod_eq_zero_of_dvd hd)
  · intro h hh
    unfold MutRawPtr.new at hh
    split_ifs at hh with h1 h2
    · rw [Option.some_inj] at hh
      rw [← hh]
      exact ⟨rfl, rfl, rfl⟩

/-- Witness for new_succeeds_iff_aligned_and_in_bounds at a concrete
aligned address and in-bounds offset. -/
theorem new_succeeds_witness :
    (ConstRawPtr.new 8 5 2 4 : Option (ConstRawPtr Int)).isSome = true ∧
    (MutRawPtr.new 8 5 2 4 : Option (MutRawPtr Int)).isSome = true :=
  ⟨(new_succeeds_iff_aligned_and_in_bounds Int 8 5 2 4).1.mpr (by decide),
   (new_succeeds_iff_aligned_and_in_bounds Int 8 5 2 4).2.2.1.mpr (by decide)⟩

/-- C5: on a non-null, aligned handle of either variant, change_offset
succeeds exactly when 0 <= offset + count < memory_length, in which case
the new state has offset + count as offset and the address shifted by
count times the size of T, with the length untouched; otherwise it fails
and returns the handle completely unchanged. -/
theorem change_offset_characterisation {T : Type} (sz al : Nat)
    (h : ConstRawPtr T) (g : MutRawPtr T) (count : Int)
    (hch : ConstRawPtr.check_ptr al h = true)
    (hcg : MutRawPtr.check_ptr al g = true) :
    ((0 ≤ (h.offset : Int) + count ∧
        (h.offset : Int) + count < (h.memory_length : Int)) →
      ConstRawPtr.change_offset sz al h count =
        (some (), ConstRawPtr.mk (h.ptr + count * (sz : Int)) h.memory_length
          ((h.offset : Int) + count).toNat)) ∧
    (¬ (0 ≤ (h.offset : Int) + count ∧
        (h.offset : Int) + count < (h.memory_length : Int)) →
      ConstRawPtr.change_offset sz al h count = (none, h)) ∧
    ((0 ≤ (g.offset : Int) + count ∧
        (g.offset : Int) + count < (g.memory_length : Int)) →
      MutRawPtr.change_offset sz al g count =
        (some (), MutRawPtr.mk (g.ptr + count * (sz : Int)) g.memory_length
          ((g.offset : Int) + count).toNat)) ∧
    (¬ (0 ≤ (g.offset : Int) + count ∧
        (g.offset : Int) + count < (g.memory_length : Int)) →
      MutRawPtr.change_offset sz al g count = (none, g)) :=
  ⟨fun hb => const_change_offset_success sz al h count hch hb,
   fun hb => const_change_offset_failure sz al h count hb,
   fun hb => mut_change_offset_success sz al g count hcg hb,
   fun hb => mut_change_offset_failure sz al g count hb⟩

/-- Witness for change_offset_characterisation: a concrete in-bounds move
by 2 elements of size 4 from address 8, offset 1, length 5. -/
theorem change_offset_characterisation_witness :
    ConstRawPtr.change_offset 4 4 (ConstRawPtr.mk 8 5 1 : ConstRawPtr Int) 2 =
      (some (), ConstRawPtr.mk 16 5 3) ∧
    MutRawPtr.change_offset 4 4 (MutRawPtr.mk 8 5 1 : MutRawPtr Int) 2 =
      (some (), MutRawPtr.mk 16 5 3) :=
  ⟨(change_offset_characterisation 4 4 (ConstRawPtr.mk 8 5 1)
      (MutRawPtr.mk 8 5 1 : MutRawPtr Int) 2 (by decide) (by decide)).1
      (by decide),
   (change_offset_characterisation 4 4 (ConstRawPtr.mk 8 5 1)
      (MutRawPtr.mk 8 5 1 : MutRawPtr Int) 2 (by decide) (by decide)).2.2.1
      (by decide)⟩

/-- C6: when the external backend hands back the null address the bridge
aborts the process (modelled as none) and never returns a null or failure
value; when the backend hands back a non-null address the bridge returns
exactly that address. -/
theorem alloc_aborts_iff_backend_null (backend : Nat → Nat) (size : Nat) :
    (C_GLOBAL_ALLOCATOR.alloc backend size = none ↔ backend size = 0) ∧
    (backend size ≠ 0 →
      C_GLOBAL_ALLOCATOR.alloc backend size = some (backend size)) ∧
    (∀ p : Nat, C_GLOBAL_ALLOCATOR.alloc backend size = some p →
      p = backend size ∧ p ≠ 0) := by
  unfold C_GLOBAL_ALLOCATOR.alloc
  split_ifs with hz
  · exact ⟨by simp [hz], fun hn => absurd hz hn,
      fun p hp => hp.elim⟩
  · refine ⟨by simp [hz], fun hn => rfl, fun p hp => ?_⟩
    rw [Option.some_inj] at hp
    exact ⟨hp.symm, by omega⟩

/-- Witness for alloc_aborts_iff_backend_null with a backend returning the
address 7, and one returning the null address. -/
theorem alloc_aborts_witness :
    C_GLOBAL_ALLOCATOR.alloc (fun _ => 7) 1 = some 7 ∧
    C_GLOBAL_ALLOCATOR.alloc (fun _ => 0) 1 = none :=
  ⟨(alloc_aborts_iff_backend_null (fun _ => 7) 1).2.1 (by decide),
   (alloc_aborts_iff_backend_null (fun _ => 0) 1).1.mpr (by decide)⟩

/-- C7: on a valid handle of either variant (non-null, aligned,
offset < memory_length), a change_offset by d followed by a change_offset
by -d restores the offset, address and length exactly, provided the first
move is in bounds and the intermediate handle still passes check_ptr. -/
theorem change_offset_roundtrip {T : Type} (sz al : Nat) (h : ConstRawPtr T)
    (g : MutRawPtr T) (d : Int) :
    (ConstRawPtr.check_ptr al h = true → h.offset < h.memory_length →
      0 ≤ (h.offset : Int) + d →
      (h.offset : Int) + d < (h.memory_length : Int) →
      ConstRawPtr.check_ptr al (ConstRawPtr.change_offset sz al h d).2 = true →
      ConstRawPtr.change_offset sz al
        (ConstRawPtr.change_offset sz al h d).2 (-d) = (some (), h)) ∧
    (MutRawPtr.check_ptr al g = true → g.offset < g.memory_length →
      0 ≤ (g.offset : Int) + d →
      (g.offset : Int) + d < (g.memory_length : Int) →
      MutRawPtr.check_ptr al (MutRawPtr.change_offset sz al g d).2 = true →
      MutRawPtr.change_offset sz al
        (MutRawPtr.change_offset sz al g d).2 (-d) = (some (), g)) := by
  constructor
  · obtain ⟨p, len, off⟩ := h
    intro hc hoff hd1 hd2 hc2
    dsimp only at hoff hd1 hd2
    rw [const_change_offset_success sz al _ d hc ⟨hd1, hd2⟩] at hc2 ⊢
    rw [const_change_offset_success sz al _ (-d) hc2
      ⟨by dsimp only; omega, by dsimp only; omega⟩]
    dsimp only
    have hptr : p + d * (sz : Int) + -d * (sz : Int) = p := by ring
    have hoff2 : (((((off : Int) + d).toNat : Nat) : Int) + -d).toNat = off := by
      omega
    rw [hptr, hoff2]
  · obtain ⟨p, len, off⟩ := g
    intro hc hoff hd1 hd2 hc2
    dsimp only at hoff hd1 hd2
    rw [mut_change_offset_success sz al _ d hc ⟨hd1, hd2⟩] at hc2 ⊢
    rw [mut_change_offset_success sz al _ (-d) hc2
      ⟨by dsimp only; omega, by dsimp only; omega⟩]
    dsimp only
    have hptr : p + d * (sz : Int) + -d * (sz : Int) = p := by ring
    have hoff2 : (((((off : Int) + d).toNat : Nat) : Int) + -d).toNat = off := by
      omega
    rw [hptr, hoff2]

/-- Witness for change_offset_roundtrip: moving by 2 and back by -2 from
address 8, offset 1, length 5, elements of size and alignment 4. -/
theorem change_offset_roundtrip_witness :
    ConstRawPtr.change_offset 4 4
      (ConstRawPtr.change_offset 4 4 (ConstRawPtr.mk 8 5 1 : ConstRawPtr Int)
        2).2 (-2) = (some (), ConstRawPtr.mk 8 5 1) ∧
    MutRawPtr.change_offset 4 4
      (MutRawPtr.change_offset 4 4 (MutRawPtr.mk 8 5 1 : MutRawPtr Int)
        2).2 (-2) = (some (), MutRawPtr.mk 8 5 1) :=
  ⟨(change_offset_roundtrip 4 4 (ConstRawPtr.mk 8 5 1)
        (MutRawPtr.mk 8 5 1 : MutRawPtr Int) 2).1
      (by decide) (by decide) (by decide) (by decide) (by decide),
   (change_offset_roundtrip 4 4 (ConstRawPtr.mk 8 5 1 : ConstRawPtr Int)
        (MutRawPtr.mk 8 5 1) 2).2
      (by decide) (by decide) (by decide) (by decide) (by decide)⟩

/-- C8: on a non-null, aligned MutRawPtr handle, write_ptr succeeds and a
subsequent access on the resulting memory returns exactly the written
value; on a null or misaligned handle write_ptr fails and performs no
write. -/
theorem write_then_access {T : Type} (al : Nat) (g : MutRawPtr T)
    (mem : Int → T) (v : T) :
    (MutRawPtr.check_ptr al g = true →
      (MutRawPtr.write_ptr al g mem v).1 = some () ∧
      MutRawPtr.access al g (MutRawPtr.write_ptr al g mem v).2 = some v) ∧
    (MutRawPtr.check_ptr al g = false →
      MutRawPtr.write_ptr al g mem v = (none, mem)) := by
  constructor
  · intro hv
    simp [MutRawPtr.write_ptr, MutRawPtr.access, hv, Function.update_same]
  · intro hv
    simp [MutRawPtr.write_ptr, hv]

/-- Witness for write_then_access: writing 42 at address 8 and reading it
back. -/
theorem write_then_access_witness :
    (MutRawPtr.write_ptr 4 (MutRawPtr.mk 8 1 0 : MutRawPtr Int)
      (fun _ => (0 : Int)) 42).1 = some () ∧
    MutRawPtr.access 4 (MutRawPtr.mk 8 1 0 : MutRawPtr Int)
      (MutRawPtr.write_ptr 4 (MutRawPtr.mk 8 1 0 : MutRawPtr Int)
        (fun _ => (0 : Int)) 42).2 = some 42 :=
  (write_then_access 4 (MutRawPtr.mk 8 1 0) (fun _ => (0 : Int)) 42).1
    (by decide)

/-- C9: cast_ptr on either variant fails exactly when the pointer is null,
and on a non-null handle yields a handle of the new element type U whose
numeric address, memory_length and offset all equal the original fields;
alignment is not rechecked. -/
theorem cast_ptr_characterisation {T U : Type} (h : ConstRawPtr T)
    (g : MutRawPtr T) :
    (ConstRawPtr.cast_ptr U h = none ↔ h.ptr = 0) ∧
    (¬ h.ptr = 0 → ConstRawPtr.cast_ptr U h =
      some (ConstRawPtr.mk h.ptr h.memory_length h.offset)) ∧
    (MutRawPtr.cast_ptr U g = none ↔ g.ptr = 0) ∧
    (¬ g.ptr = 0 → MutRawPtr.cast_ptr U g =
      some (MutRawPtr.mk g.ptr g.memory_length g.offset)) := by
  refine ⟨?_, ?_, ?_, ?_⟩
  · unfold ConstRawPtr.cast_ptr
    split_ifs with hp
    · simp [hp]
    · simp [hp]
  · intro hp
    unfold ConstRawPtr.cast_ptr
    rw [if_pos hp]
  · unfold MutRawPtr.cast_ptr
    split_ifs with hp
    · simp [hp]
    · simp [hp]
  · intro hp
    unfold MutRawPtr.cast_ptr
    rw [if_pos hp]

/-- Witness for cast_ptr_characterisation: casting a handle at address 8,
length 5, offset 2 from element type Int to element type Bool. -/
theorem cast_ptr_characterisation_witness :
    ConstRawPtr.cast_ptr Bool (ConstRawPtr.mk 8 5 2 : ConstRawPtr Int) =
      some (ConstRawPtr.mk 8 5 2) ∧
    MutRawPtr.cast_ptr Bool (MutRawPtr.mk 8 5 2 : MutRawPtr Int) =
      some (MutRawPtr.mk 8 5 2) :=
  ⟨(cast_ptr_characterisation (ConstRawPtr.mk 8 5 2 : ConstRawPtr Int)
      (MutRawPtr.mk 8 5 2 : MutRawPtr Int)).2.1 (by decide),
   (cast_ptr_characterisation (ConstRawPtr.mk 8 5 2 : ConstRawPtr Int)
      (MutRawPtr.mk 8 5 2 : MutRawPtr Int)).2.2.2 (by decide)⟩

/-- C10: converting the null-sentinel handle of either variant to the
opposite capability forwards the fields (null address, length 0, offset 0)
to the target constructor, whose bounds assertion offset < memory_length
fails at 0 < 0; the call therefore panics, modelled as none, instead of
returning an opposite-capability null handle. -/
theorem null_sentinel_conversion_panics (T : Type) (al : Nat) :
    ConstRawPtr.as_mut al (ConstRawPtr.nullptr T) = none ∧
    MutRawPtr.as_const al (MutRawPtr.nullptr T) = none := by
  constructor
  · simp [ConstRawPtr.as_mut, MutRawPtr.new, ConstRawPtr.nullptr,
      Int.zero_emod]
  · simp [MutRawPtr.as_const, ConstRawPtr.new, MutRawPtr.nullptr,
      Int.zero_emod]

end BoxRawPtr
